import Mathlib

/-
Verification development for the vibration-data ingestion pipeline
(`save_data.py`, with the dashboard's `connect_db` from `new.py`).

The pipeline is embedded shallowly: the module-level constants and mutable
globals of `save_data.py` become a `PipelineState` record over exact rational
arithmetic (`ℚ` stands in for Python floats; all state-preservation and
ordering claims are arithmetic-representation independent), and the
`on_message` / `on_close` WebSocket callbacks become pure step functions that
also return the list of database interactions (flush / rollback / close) they
perform.  Inbound messages are modelled by the distinctions `on_message`
itself makes: verbatim control strings, JSON parse failure, a parsed value
whose membership test raises, a parsed object without well-shaped `a` / `vib`
fields, a well-shaped object whose elements fail `float()` conversion, and a
fully parsed numeric sample.
-/

namespace VibrationPipeline

/-- Calculation settings of `save_data.py` (lines 33-38). -/
def VEL_WINDOW : Nat := 10

/-- Sample interval `DT = 0.015` (exact value `3/200`). -/
def DT : ℚ := 15 / 1000

/-- High-pass filter coefficient `HPF_ALPHA = 0.84`. -/
def HPF_ALPHA : ℚ := 84 / 100

/-- Low-pass filter coefficient `LPF_BETA = 0.32`. -/
def LPF_BETA : ℚ := 32 / 100

/-- Integrator reset cadence `RESET_INTERVAL = 20`. -/
def RESET_INTERVAL : Nat := 20

/-- Outlier threshold `ACCEL_LIMIT = 49050`. -/
def ACCEL_LIMIT : ℚ := 49050

/-- A triple of numeric values, used for the `a` and `vib` payload fields. -/
structure Triple where
  x : ℚ
  y : ℚ
  z : ℚ
deriving DecidableEq

/-- An inbound WebSocket message, classified exactly by the distinctions
`on_message` makes (lines 64-86 of `save_data.py`):
* the three verbatim control strings of line 66;
* `unparseable`: `json.loads` raises `JSONDecodeError` (line 180);
* `nonContainer`: the message parses to a value on which the membership
  test `'a' in data` raises `TypeError`, landing in the generic handler
  (lines 182-184, which issues a rollback);
* `badShape`: the message parses but `a`/`vib` are absent or not lists of
  length exactly 3, so the guard on line 73 is false and nothing happens;
* `badNumeric`: the guard on line 73 passes but some element fails `float()`
  conversion (lines 76-81) — note this happens AFTER the counter increments
  of lines 74-75, and lands in the generic handler (rollback);
* `sample a vib`: a fully parsed numeric sample. -/
inductive Message where
  | authenticated
  | authFailed
  | resetting
  | unparseable
  | nonContainer
  | badShape
  | badNumeric
  | sample (a : Triple) (vib : Triple)
deriving DecidableEq

/-- One row of the `samples` table as assembled on line 161 of
`save_data.py`.  The code stores `float(np.sqrt(q))` for the six RMS fields;
since square roots are irrational we record the radicand `q` (the value
inside the square root) in each `*_sq` field — the stored value is exactly
`Real.sqrt` of it, so every claim about the stored RMS values is expressed
through `Real.sqrt` of these radicands. -/
structure Row where
  sample : Nat
  x : ℚ
  y : ℚ
  z : ℚ
  h_vib : ℚ
  v_vib : ℚ
  a_vib : ℚ
  vel_rms_h_sq : ℚ
  vel_rms_v_sq : ℚ
  vel_rms_a_sq : ℚ
  disp_rms_h_sq : ℚ
  disp_rms_v_sq : ℚ
  disp_rms_a_sq : ℚ
  sensor_id : Nat
deriving DecidableEq

/-- Database interactions performed by the callbacks: a successful batched
insert-and-commit, a rollback, and the final close of cursor and
connection. -/
inductive DbEvent where
  | flush (rows : List Row)
  | rollback
  | closed
deriving DecidableEq

/-- The module-level mutable state of `save_data.py` (lines 41-56 plus the
`sample_count` initialized on line 20). -/
structure PipelineState where
  vel_buffer_x : List ℚ
  vel_buffer_y : List ℚ
  vel_buffer_z : List ℚ
  disp_buffer_x : List ℚ
  disp_buffer_y : List ℚ
  disp_buffer_z : List ℚ
  vel_index : Nat
  vel_x : ℚ
  vel_y : ℚ
  vel_z : ℚ
  disp_x : ℚ
  disp_y : ℚ
  disp_z : ℚ
  prev_acc_x : ℚ
  prev_acc_y : ℚ
  prev_acc_z : ℚ
  prev_vel_x : ℚ
  prev_vel_y : ℚ
  prev_vel_z : ℚ
  prev_hpf_x : ℚ
  prev_hpf_y : ℚ
  prev_hpf_z : ℚ
  prev_lpf_x : ℚ
  prev_lpf_y : ℚ
  prev_lpf_z : ℚ
  prev_input_x : ℚ
  prev_input_y : ℚ
  prev_input_z : ℚ
  sample_counter : Nat
  sample_count : Nat
  all_data : List Row
deriving DecidableEq

/-- `COALESCE(MAX(sample), 0)` of the startup query (line 18): the maximum
sequence number present in the store, or 0 when the store holds no rows. -/
def lastSample (samples : List Nat) : Nat := samples.foldr max 0

/-- The initial pipeline state: zeroed buffers of length `VEL_WINDOW`
(lines 41-56) and `sample_count = last_sample + 1` (line 20). -/
def initState (last_sample : Nat) : PipelineState where
  vel_buffer_x := List.replicate VEL_WINDOW 0
  vel_buffer_y := List.replicate VEL_WINDOW 0
  vel_buffer_z := List.replicate VEL_WINDOW 0
  disp_buffer_x := List.replicate VEL_WINDOW 0
  disp_buffer_y := List.replicate VEL_WINDOW 0
  disp_buffer_z := List.replicate VEL_WINDOW 0
  vel_index := 0
  vel_x := 0
  vel_y := 0
  vel_z := 0
  disp_x := 0
  disp_y := 0
  disp_z := 0
  prev_acc_x := 0
  prev_acc_y := 0
  prev_acc_z := 0
  prev_vel_x := 0
  prev_vel_y := 0
  prev_vel_z := 0
  prev_hpf_x := 0
  prev_hpf_y := 0
  prev_hpf_z := 0
  prev_lpf_x := 0
  prev_lpf_y := 0
  prev_lpf_z := 0
  prev_input_x := 0
  prev_input_y := 0
  prev_input_z := 0
  sample_counter := 0
  sample_count := last_sample + 1
  all_data := []

/-- The outlier test of line 84: some acceleration component has absolute
value strictly greater than `ACCEL_LIMIT`. -/
def isOutlier (a : Triple) : Bool :=
  decide (ACCEL_LIMIT < |a.x|) || decide (ACCEL_LIMIT < |a.y|) ||
    decide (ACCEL_LIMIT < |a.z|)

/-- A message is accepted (contributes a row) iff it is a fully parsed
sample whose acceleration passes the outlier test. -/
def acceptedMsg : Message → Bool
  | .sample a _ => !(isOutlier a)
  | _ => false

/-- Messages on which lines 74-75 run (incrementing `sample_count` and
`sample_counter`) even though the message may still be rejected afterwards:
every message passing the shape guard of line 73. -/
def countsMsg : Message → Bool
  | .badNumeric => true
  | .sample _ _ => true
  | _ => false

/-- Rejected messages that nevertheless increment both counters: a shaped
message with a non-convertible element, or an outlier sample (the counter
increments of lines 74-75 precede both the conversions of lines 76-81 and
the outlier check of line 84). -/
def countedOnReject : Message → Bool
  | .badNumeric => true
  | .sample a _ => isOutlier a
  | _ => false

/-- High-pass filter step (lines 89-91):
`hpf = HPF_ALPHA * (prev_hpf + raw - prev_input)`. -/
def hpfStep (prev_hpf prev_input raw : ℚ) : ℚ :=
  HPF_ALPHA * (prev_hpf + raw - prev_input)

/-- Low-pass filter step (lines 92-94):
`lpf = LPF_BETA * hpf + (1 - LPF_BETA) * prev_lpf`. -/
def lpfStep (hpf prev_lpf : ℚ) : ℚ :=
  LPF_BETA * hpf + (1 - LPF_BETA) * prev_lpf

/-- Lines 88-120 of `save_data.py`: per-axis high-pass and low-pass
filtering, unconditional update of the filter memory, trapezoidal
integration of filtered acceleration into velocity and of velocity into
displacement, and unconditional update of `prev_acc` / `prev_vel`. -/
def integrateSample (s : PipelineState) (x y z : ℚ) : PipelineState :=
  let hpf_x := hpfStep s.prev_hpf_x s.prev_input_x x
  let hpf_y := hpfStep s.prev_hpf_y s.prev_input_y y
  let hpf_z := hpfStep s.prev_hpf_z s.prev_input_z z
  let lpf_x := lpfStep hpf_x s.prev_lpf_x
  let lpf_y := lpfStep hpf_y s.prev_lpf_y
  let lpf_z := lpfStep hpf_z s.prev_lpf_z
  let vel_x := s.vel_x + ((lpf_x + s.prev_acc_x) / 2) * DT
  let vel_y := s.vel_y + ((lpf_y + s.prev_acc_y) / 2) * DT
  let vel_z := s.vel_z + ((lpf_z + s.prev_acc_z) / 2) * DT
  let disp_x := s.disp_x + ((vel_x + s.prev_vel_x) / 2) * DT
  let disp_y := s.disp_y + ((vel_y + s.prev_vel_y) / 2) * DT
  let disp_z := s.disp_z + ((vel_z + s.prev_vel_z) / 2) * DT
  { s with
    prev_hpf_x := hpf_x, prev_hpf_y := hpf_y, prev_hpf_z := hpf_z
    prev_lpf_x := lpf_x, prev_lpf_y := lpf_y, prev_lpf_z := lpf_z
    prev_input_x := x, prev_input_y := y, prev_input_z := z
    vel_x := vel_x, vel_y := vel_y, vel_z := vel_z
    prev_acc_x := lpf_x, prev_acc_y := lpf_y, prev_acc_z := lpf_z
    disp_x := disp_x, disp_y := disp_y, disp_z := disp_z
    prev_vel_x := vel_x, prev_vel_y := vel_y, prev_vel_z := vel_z }

/-- The integrator reset of lines 124-126: zero the three velocities, the
three displacements, and the reset counter; touch nothing else. -/
def resetIntegrator (s : PipelineState) : PipelineState :=
  { s with
    vel_x := 0, vel_y := 0, vel_z := 0
    disp_x := 0, disp_y := 0, disp_z := 0
    sample_counter := 0 }

/-- Lines 129-135: write the current velocity and displacement of each axis
into the six circular buffers at the shared `vel_index`, then advance the
index by one modulo `VEL_WINDOW`. -/
def storeBuffers (s : PipelineState) : PipelineState :=
  { s with
    vel_buffer_x := s.vel_buffer_x.set s.vel_index s.vel_x
    vel_buffer_y := s.vel_buffer_y.set s.vel_index s.vel_y
    vel_buffer_z := s.vel_buffer_z.set s.vel_index s.vel_z
    disp_buffer_x := s.disp_buffer_x.set s.vel_index s.disp_x
    disp_buffer_y := s.disp_buffer_y.set s.vel_index s.disp_y
    disp_buffer_z := s.disp_buffer_z.set s.vel_index s.disp_z
    vel_index := (s.vel_index + 1) % VEL_WINDOW }

/-- The radicand of the RMS computation of lines 138-143:
`sum(v * v for v in buffer) / VEL_WINDOW`.  The reported RMS is
`Real.sqrt` of this value. -/
def rmsSq (buf : List ℚ) : ℚ :=
  (buf.map fun v => v * v).sum / (VEL_WINDOW : ℚ)

/-- Row assembly (lines 138-161): RMS radicands are computed from the
buffers AFTER this sample's insertion, the axis mapping sends `z` to
horizontal, `y` to vertical and `x` to axial (lines 145-150), and the
sequence number is the already-incremented `sample_count`. -/
def mkRow (sid : Nat) (a vib : Triple) (s : PipelineState) : Row where
  sample := s.sample_count
  x := a.x
  y := a.y
  z := a.z
  h_vib := vib.x
  v_vib := vib.y
  a_vib := vib.z
  vel_rms_h_sq := rmsSq s.vel_buffer_z
  vel_rms_v_sq := rmsSq s.vel_buffer_y
  vel_rms_a_sq := rmsSq s.vel_buffer_x
  disp_rms_h_sq := rmsSq s.disp_buffer_z
  disp_rms_v_sq := rmsSq s.disp_buffer_y
  disp_rms_a_sq := rmsSq s.disp_buffer_x
  sensor_id := sid

/-- Lines 166-178: once the pending batch holds at least 10 rows, attempt a
single batched insert.  `dbOk` is whether the store accepts the write: on
success the batch is committed (`flush`) and cleared; on failure the
transaction is rolled back and the batch is cleared all the same (line
178) — the rows are discarded, not retried. -/
def flushIfFull (dbOk : Bool) (s : PipelineState) : PipelineState × List DbEvent :=
  if 10 ≤ s.all_data.length then
    if dbOk then ({ s with all_data := [] }, [DbEvent.flush s.all_data])
    else ({ s with all_data := [] }, [DbEvent.rollback])
  else (s, [])

/-- The accepted-sample path of `on_message` (lines 88-178), entered after
the counters have been incremented and the outlier check has passed:
filter and integrate, reset the integrator when the (already incremented)
reset counter has reached `RESET_INTERVAL`, store into the circular
buffers, assemble and append the row, then flush if the batch is full. -/
def processAccepted (dbOk : Bool) (sid : Nat) (s : PipelineState)
    (a vib : Triple) : PipelineState × List DbEvent :=
  let s1 := integrateSample s a.x a.y a.z
  let s2 := if RESET_INTERVAL ≤ s1.sample_counter then resetIntegrator s1 else s1
  let s3 := storeBuffers s2
  let row := mkRow sid a vib s3
  flushIfFull dbOk { s3 with all_data := s3.all_data ++ [row] }

/-- The `on_message` callback of `save_data.py` (lines 59-184) as a pure
step function, returning the new state and the database interactions
performed.  Control strings and unparseable or misshapen messages leave the
state untouched; messages passing the shape guard of line 73 increment both
counters before any further check, so outliers and conversion failures are
rejected with the counters already incremented. -/
def on_message (dbOk : Bool) (sid : Nat) (s : PipelineState) :
    Message → PipelineState × List DbEvent
  | .authenticated => (s, [])
  | .authFailed => (s, [])
  | .resetting => (s, [])
  | .unparseable => (s, [])
  | .nonContainer => (s, [DbEvent.rollback])
  | .badShape => (s, [])
  | .badNumeric =>
    ({ s with sample_count := s.sample_count + 1
              sample_counter := s.sample_counter + 1 }, [DbEvent.rollback])
  | .sample a vib =>
    let s0 := { s with sample_count := s.sample_count + 1
                       sample_counter := s.sample_counter + 1 }
    if isOutlier a then (s0, [])
    else processAccepted dbOk sid s0 a vib

/-- The `on_close` callback (lines 193-210): flush any non-empty remaining
batch (on failure only roll back; the code never reaches the `clear()` on
this path), then release cursor and connection (`closed` is emitted last in
every case). -/
def on_close (dbOk : Bool) (s : PipelineState) : PipelineState × List DbEvent :=
  if s.all_data.isEmpty then (s, [DbEvent.closed])
  else if dbOk then
    ({ s with all_data := [] }, [DbEvent.flush s.all_data, DbEvent.closed])
  else (s, [DbEvent.rollback, DbEvent.closed])

/-- Process a list of inbound messages in arrival order, accumulating the
database interactions. -/
def runMessages (dbOk : Bool) (sid : Nat) :
    PipelineState → List Message → PipelineState × List DbEvent
  | s, [] => (s, [])
  | s, m :: ms =>
    let r1 := on_message dbOk sid s m
    let r2 := runMessages dbOk sid r1.1 ms
    (r2.1, r1.2 ++ r2.2)

/-- The rows durably committed by a list of database events, in order. -/
def emittedRows : List DbEvent → List Row
  | [] => []
  | DbEvent.flush rs :: es => rs ++ emittedRows es
  | _ :: es => emittedRows es

/-- Startup of `save_data.py` (lines 11-24): a single connection attempt;
on failure the process exits (`none`) without accepting any samples.
`outcomes n` tells whether the (n+1)-th connection attempt would succeed;
the code only ever makes attempt 0. -/
def saveDataStartup (outcomes : Nat → Bool) (last_sample : Nat) :
    Option PipelineState :=
  if outcomes 0 then some (initState last_sample) else none

/-- `max_retries` of `connect_db` in `new.py` (line 91). -/
def max_retries : Nat := 3

/-- `retry_delay` of `connect_db` in `new.py` (line 92): a FIXED delay of 5
seconds between attempts, not a growing backoff. -/
def retry_delay : Nat := 5

/-- The attempt loop of `connect_db` (`new.py` lines 93-108), recursing on
the number of remaining attempts; returns the index of the first successful
attempt, or `none` when all `max_retries` attempts fail (the code then
exits). -/
def connectFrom (outcomes : Nat → Bool) (attempt : Nat) : Nat → Option Nat
  | 0 => none
  | remaining + 1 =>
    if outcomes attempt then some attempt
    else connectFrom outcomes (attempt + 1) remaining

/-- `connect_db` of `new.py` (lines 90-109): up to `max_retries` attempts
starting at attempt 0, fixed `retry_delay` between them, fatal after
exhausting all attempts. -/
def connect_db (outcomes : Nat → Bool) : Option Nat :=
  connectFrom outcomes 0 max_retries

/-- The zeroed circular buffer each of the six windows starts from
(lines 41-46). -/
def zeroBuffer : List ℚ := List.replicate VEL_WINDOW 0

/-- The RMS windower component in isolation: insert the values `vs` one per
sample starting from the zeroed buffer, writing at the shared index and
advancing it by one modulo `VEL_WINDOW` exactly as lines 129-135 do. -/
def insertSeq (vs : List ℚ) : List ℚ × Nat :=
  vs.foldl (fun bi v => (bi.1.set bi.2 v, (bi.2 + 1) % VEL_WINDOW)) (zeroBuffer, 0)

/-- Ordering variant of `on_message` following the spec's claimed ordering
for the integrator reset ("the reset happens strictly after the row for
that sample has been computed and queued, never before"): identical to
`on_message` except that on the accepted path the reset runs after the
buffer insertion and the row append.  Used only to compare the two
orderings; the source code is `on_message`. -/
def on_message_resetAfterRow (dbOk : Bool) (sid : Nat) (s : PipelineState) :
    Message → PipelineState × List DbEvent
  | .authenticated => (s, [])
  | .authFailed => (s, [])
  | .resetting => (s, [])
  | .unparseable => (s, [])
  | .nonContainer => (s, [DbEvent.rollback])
  | .badShape => (s, [])
  | .badNumeric =>
    ({ s with sample_count := s.sample_count + 1
              sample_counter := s.sample_counter + 1 }, [DbEvent.rollback])
  | .sample a vib =>
    let s0 := { s with sample_count := s.sample_count + 1
                       sample_counter := s.sample_counter + 1 }
    if isOutlier a then (s0, [])
    else
      let s1 := integrateSample s0 a.x a.y a.z
      let s3 := storeBuffers s1
      let row := mkRow sid a vib s3
      let s4 := { s3 with all_data := s3.all_data ++ [row] }
      let s5 := if RESET_INTERVAL ≤ s4.sample_counter then resetIntegrator s4 else s4
      flushIfFull dbOk s5

/-- The all-zero sample message, accepted by the validator. -/
def sampleZero : Message := Message.sample ⟨0, 0, 0⟩ ⟨0, 0, 0⟩

/-- An outlier message: first acceleration component exceeds `ACCEL_LIMIT`
by one. -/
def outlierMsg : Message := Message.sample ⟨49051, 0, 0⟩ ⟨0, 0, 0⟩

/-- A state about to trigger the integrator reset, with a nonzero velocity
so the reset is observable in the buffers. -/
def s19 : PipelineState := { initState 0 with sample_counter := 19, vel_x := 1 }

/-- The row produced by an accepted sample, as a function of the pre-message
state: the pipeline stages of `processAccepted` applied in order. -/
def rowOf (sid : Nat) (s : PipelineState) (a vib : Triple) : Row :=
  let s0 := { s with sample_count := s.sample_count + 1
                     sample_counter := s.sample_counter + 1 }
  let s1 := integrateSample s0 a.x a.y a.z
  let s2 := if RESET_INTERVAL ≤ s1.sample_counter then resetIntegrator s1 else s1
  mkRow sid a vib (storeBuffers s2)

section HelperLemmas

lemma flushIfFull_fst (dbOk : Bool) (s : PipelineState) :
    (flushIfFull dbOk s).1 =
      { s with all_data := if 10 ≤ s.all_data.length then [] else s.all_data } := by
  unfold flushIfFull
  by_cases h : 10 ≤ s.all_data.length
  · cases dbOk <;> simp [h]
  · simp [h]

lemma flushIfFull_snd (dbOk : Bool) (s : PipelineState) :
    (flushIfFull dbOk s).2 =
      if 10 ≤ s.all_data.length then
        (if dbOk then [DbEvent.flush s.all_data] else [DbEvent.rollback])
      else [] := by
  unfold flushIfFull
  by_cases h : 10 ≤ s.all_data.length
  · cases dbOk <;> simp [h]
  · simp [h]

lemma on_message_sample (dbOk : Bool) (sid : Nat) (s : PipelineState)
    (a vib : Triple) (h : isOutlier a = false) :
    on_message dbOk sid s (Message.sample a vib) =
      processAccepted dbOk sid
        { s with sample_count := s.sample_count + 1
                 sample_counter := s.sample_counter + 1 } a vib := by
  simp [on_message, h]

end HelperLemmas

section ProjectionLemmas

@[simp] lemma integrateSample_all_data (s : PipelineState) (x y z : ℚ) :
    (integrateSample s x y z).all_data = s.all_data := rfl

@[simp] lemma integrateSample_sample_count (s : PipelineState) (x y z : ℚ) :
    (integrateSample s x y z).sample_count = s.sample_count := rfl

@[simp] lemma integrateSample_sample_counter (s : PipelineState) (x y z : ℚ) :
    (integrateSample s x y z).sample_counter = s.sample_counter := rfl

@[simp] lemma integrateSample_vel_index (s : PipelineState) (x y z : ℚ) :
    (integrateSample s x y z).vel_index = s.vel_index := rfl

@[simp] lemma integrateSample_vel_buffer_x (s : PipelineState) (x y z : ℚ) :
    (integrateSample s x y z).vel_buffer_x = s.vel_buffer_x := rfl

@[simp] lemma integrateSample_vel_buffer_y (s : PipelineState) (x y z : ℚ) :
    (integrateSample s x y z).vel_buffer_y = s.vel_buffer_y := rfl

@[simp] lemma integrateSample_vel_buffer_z (s : PipelineState) (x y z : ℚ) :
    (integrateSample s x y z).vel_buffer_z = s.vel_buffer_z := rfl

@[simp] lemma integrateSample_disp_buffer_x (s : PipelineState) (x y z : ℚ) :
    (integrateSample s x y z).disp_buffer_x = s.disp_buffer_x := rfl

@[simp] lemma integrateSample_disp_buffer_y (s : PipelineState) (x y z : ℚ) :
    (integrateSample s x y z).disp_buffer_y = s.disp_buffer_y := rfl

@[simp] lemma integrateSample_disp_buffer_z (s : PipelineState) (x y z : ℚ) :
    (integrateSample s x y z).disp_buffer_z = s.disp_buffer_z := rfl

@[simp] lemma resetIntegrator_all_data (s : PipelineState) :
    (resetIntegrator s).all_data = s.all_data := rfl

@[simp] lemma resetIntegrator_sample_count (s : PipelineState) :
    (resetIntegrator s).sample_count = s.sample_count := rfl

@[simp] lemma resetIntegrator_vel_index (s : PipelineState) :
    (resetIntegrator s).vel_index = s.vel_index := rfl

@[simp] lemma resetIntegrator_vel_buffer_x (s : PipelineState) :
    (resetIntegrator s).vel_buffer_x = s.vel_buffer_x := rfl

@[simp] lemma resetIntegrator_vel_buffer_y (s : PipelineState) :
    (resetIntegrator s).vel_buffer_y = s.vel_buffer_y := rfl

@[simp] lemma resetIntegrator_vel_buffer_z (s : PipelineState) :
    (resetIntegrator s).vel_buffer_z = s.vel_buffer_z := rfl

@[simp] lemma resetIntegrator_disp_buffer_x (s : PipelineState) :
    (resetIntegrator s).disp_buffer_x = s.disp_buffer_x := rfl

@[simp] lemma resetIntegrator_disp_buffer_y (s : PipelineState) :
    (resetIntegrator s).disp_buffer_y = s.disp_buffer_y := rfl

@[simp] lemma resetIntegrator_disp_buffer_z (s : PipelineState) :
    (resetIntegrator s).disp_buffer_z = s.disp_buffer_z := rfl

@[simp] lemma storeBuffers_all_data (s : PipelineState) :
    (storeBuffers s).all_data = s.all_data := rfl

@[simp] lemma storeBuffers_sample_count (s : PipelineState) :
    (storeBuffers s).sample_count = s.sample_count := rfl

@[simp] lemma storeBuffers_sample_counter (s : PipelineState) :
    (storeBuffers s).sample_counter = s.sample_counter := rfl

@[simp] lemma mkRow_sample (sid : Nat) (a vib : Triple) (s : PipelineState) :
    (mkRow sid a vib s).sample = s.sample_count := rfl

@[simp] lemma resetIntegrator_vel_x (s : PipelineState) :
    (resetIntegrator s).vel_x = 0 := rfl

@[simp] lemma resetIntegrator_vel_y (s : PipelineState) :
    (resetIntegrator s).vel_y = 0 := rfl

@[simp] lemma resetIntegrator_vel_z (s : PipelineState) :
    (resetIntegrator s).vel_z = 0 := rfl

@[simp] lemma resetIntegrator_disp_x (s : PipelineState) :
    (resetIntegrator s).disp_x = 0 := rfl

@[simp] lemma resetIntegrator_disp_y (s : PipelineState) :
    (resetIntegrator s).disp_y = 0 := rfl

@[simp] lemma resetIntegrator_disp_z (s : PipelineState) :
    (resetIntegrator s).disp_z = 0 := rfl

@[simp] lemma storeBuffers_vel_index (s : PipelineState) :
    (storeBuffers s).vel_index = (s.vel_index + 1) % VEL_WINDOW := rfl

@[simp] lemma storeBuffers_vel_buffer_x (s : PipelineState) :
    (storeBuffers s).vel_buffer_x = s.vel_buffer_x.set s.vel_index s.vel_x := rfl

@[simp] lemma storeBuffers_vel_buffer_y (s : PipelineState) :
    (storeBuffers s).vel_buffer_y = s.vel_buffer_y.set s.vel_index s.vel_y := rfl

@[simp] lemma storeBuffers_vel_buffer_z (s : PipelineState) :
    (storeBuffers s).vel_buffer_z = s.vel_buffer_z.set s.vel_index s.vel_z := rfl

@[simp] lemma storeBuffers_disp_buffer_x (s : PipelineState) :
    (storeBuffers s).disp_buffer_x = s.disp_buffer_x.set s.vel_index s.disp_x := rfl

@[simp] lemma storeBuffers_disp_buffer_y (s : PipelineState) :
    (storeBuffers s).disp_buffer_y = s.disp_buffer_y.set s.vel_index s.disp_y := rfl

@[simp] lemma storeBuffers_disp_buffer_z (s : PipelineState) :
    (storeBuffers s).disp_buffer_z = s.disp_buffer_z.set s.vel_index s.disp_z := rfl

@[simp] lemma storeBuffers_vel_x (s : PipelineState) :
    (storeBuffers s).vel_x = s.vel_x := rfl

@[simp] lemma storeBuffers_vel_y (s : PipelineState) :
    (storeBuffers s).vel_y = s.vel_y := rfl

@[simp] lemma storeBuffers_vel_z (s : PipelineState) :
    (storeBuffers s).vel_z = s.vel_z := rfl

@[simp] lemma storeBuffers_disp_x (s : PipelineState) :
    (storeBuffers s).disp_x = s.disp_x := rfl

@[simp] lemma storeBuffers_disp_y (s : PipelineState) :
    (storeBuffers s).disp_y = s.disp_y := rfl

@[simp] lemma storeBuffers_disp_z (s : PipelineState) :
    (storeBuffers s).disp_z = s.disp_z := rfl

end ProjectionLemmas

section StepLemmas

/-- The batching behaviour of an accepted sample, expressed against the
pre-message state: the row `rowOf sid s a vib` is appended, and the batch
is flushed (or discarded on failure) exactly when it has reached 10 rows. -/
lemma accepted_step_facts (dbOk : Bool) (sid : Nat) (s : PipelineState)
    (a vib : Triple) (h : isOutlier a = false) :
    (on_message dbOk sid s (Message.sample a vib)).1.all_data
        = (if 10 ≤ s.all_data.length + 1 then []
           else s.all_data ++ [rowOf sid s a vib]) ∧
    (on_message dbOk sid s (Message.sample a vib)).2
        = (if 10 ≤ s.all_data.length + 1 then
            (if dbOk then [DbEvent.flush (s.all_data ++ [rowOf sid s a vib])]
             else [DbEvent.rollback])
           else []) ∧
    (on_message dbOk sid s (Message.sample a vib)).1.sample_count
        = s.sample_count + 1 ∧
    (rowOf sid s a vib).sample = s.sample_count + 1 := by
  rw [on_message_sample dbOk sid s a vib h]
  simp only [processAccepted, rowOf]
  refine ⟨?_, ?_, ?_, ?_⟩
  · rw [flushIfFull_fst]
    simp [apply_ite PipelineState.all_data, List.length_append]
  · rw [flushIfFull_snd]
    simp [apply_ite PipelineState.all_data, List.length_append]
  · rw [flushIfFull_fst]
    simp [apply_ite PipelineState.sample_count, apply_ite PipelineState.all_data]
  · simp [mkRow_sample, apply_ite PipelineState.sample_count]

/-- On a rejected message the state changes only in the two counters, and
only when the rejected message was counted before its rejection. -/
lemma rejected_state_eq (dbOk : Bool) (sid : Nat) (s : PipelineState)
    (m : Message) (h : acceptedMsg m = false) :
    (on_message dbOk sid s m).1 =
      { s with
        sample_count := s.sample_count + (if countedOnReject m then 1 else 0)
        sample_counter := s.sample_counter + (if countedOnReject m then 1 else 0) } := by
  cases m with
  | sample a vib =>
    have ho : isOutlier a = true := by
      simpa [acceptedMsg] using h
    simp [on_message, countedOnReject, ho]
  | badNumeric => simp [on_message, countedOnReject]
  | _ => simp_all [on_message, countedOnReject, acceptedMsg]

/-- A rejected message commits no rows. -/
lemma rejected_events (dbOk : Bool) (sid : Nat) (s : PipelineState)
    (m : Message) (h : acceptedMsg m = false) :
    emittedRows (on_message dbOk sid s m).2 = [] := by
  cases m with
  | sample a vib =>
    have ho : isOutlier a = true := by
      simpa [acceptedMsg] using h
    simp [on_message, ho, emittedRows]
  | badNumeric => simp [on_message, emittedRows]
  | _ => simp [on_message, emittedRows]

/-- An accepted message is a sample that passes the outlier test. -/
lemma accepted_shape (m : Message) (hm : acceptedMsg m = true) :
    ∃ a vib, m = Message.sample a vib ∧ isOutlier a = false := by
  cases m <;> simp [acceptedMsg] at hm
  case sample a vib => exact ⟨a, vib, rfl, by simpa using hm⟩

/-- The buffer and index behaviour of an accepted sample. -/
lemma accepted_buffer_facts (dbOk : Bool) (sid : Nat) (s : PipelineState)
    (a vib : Triple) (h : isOutlier a = false) :
    (on_message dbOk sid s (Message.sample a vib)).1.vel_index
        = (s.vel_index + 1) % VEL_WINDOW ∧
    (on_message dbOk sid s (Message.sample a vib)).1.vel_buffer_x
        = s.vel_buffer_x.set s.vel_index
            (on_message dbOk sid s (Message.sample a vib)).1.vel_x ∧
    (on_message dbOk sid s (Message.sample a vib)).1.vel_buffer_y
        = s.vel_buffer_y.set s.vel_index
            (on_message dbOk sid s (Message.sample a vib)).1.vel_y ∧
    (on_message dbOk sid s (Message.sample a vib)).1.vel_buffer_z
        = s.vel_buffer_z.set s.vel_index
            (on_message dbOk sid s (Message.sample a vib)).1.vel_z ∧
    (on_message dbOk sid s (Message.sample a vib)).1.disp_buffer_x
        = s.disp_buffer_x.set s.vel_index
            (on_message dbOk sid s (Message.sample a vib)).1.disp_x ∧
    (on_message dbOk sid s (Message.sample a vib)).1.disp_buffer_y
        = s.disp_buffer_y.set s.vel_index
            (on_message dbOk sid s (Message.sample a vib)).1.disp_y ∧
    (on_message dbOk sid s (Message.sample a vib)).1.disp_buffer_z
        = s.disp_buffer_z.set s.vel_index
            (on_message dbOk sid s (Message.sample a vib)).1.disp_z := by
  rw [on_message_sample dbOk sid s a vib h]
  simp only [processAccepted]
  rw [flushIfFull_fst]
  refine ⟨?_, ?_, ?_, ?_, ?_, ?_, ?_⟩ <;>
    simp [apply_ite PipelineState.vel_index, apply_ite PipelineState.vel_buffer_x,
      apply_ite PipelineState.vel_buffer_y, apply_ite PipelineState.vel_buffer_z,
      apply_ite PipelineState.disp_buffer_x, apply_ite PipelineState.disp_buffer_y,
      apply_ite PipelineState.disp_buffer_z, apply_ite PipelineState.vel_x,
      apply_ite PipelineState.vel_y, apply_ite PipelineState.vel_z,
      apply_ite PipelineState.disp_x, apply_ite PipelineState.disp_y,
      apply_ite PipelineState.disp_z]

end StepLemmas

/-- C9: the periodic integrator reset modifies exactly the three per-axis
velocities, the three per-axis displacements, and the reset counter, and
nothing else — the filter memory (`prev_input`, `prev_hpf`, `prev_lpf`),
the integration memory (`prev_acc`, `prev_vel`), the six RMS buffers, the
buffer index, the sequence counter and the pending batch are all unchanged;
consequently the first velocity and displacement updates after a reset
still blend the pre-reset `prev_acc` and `prev_vel` values. -/
theorem reset_frame_effect (s : PipelineState) (x y z : ℚ) :
    (resetIntegrator s).vel_x = 0 ∧ (resetIntegrator s).vel_y = 0 ∧
    (resetIntegrator s).vel_z = 0 ∧ (resetIntegrator s).disp_x = 0 ∧
    (resetIntegrator s).disp_y = 0 ∧ (resetIntegrator s).disp_z = 0 ∧
    (resetIntegrator s).sample_counter = 0 ∧
    (resetIntegrator s).vel_buffer_x = s.vel_buffer_x ∧
    (resetIntegrator s).vel_buffer_y = s.vel_buffer_y ∧
    (resetIntegrator s).vel_buffer_z = s.vel_buffer_z ∧
    (resetIntegrator s).disp_buffer_x = s.disp_buffer_x ∧
    (resetIntegrator s).disp_buffer_y = s.disp_buffer_y ∧
    (resetIntegrator s).disp_buffer_z = s.disp_buffer_z ∧
    (resetIntegrator s).vel_index = s.vel_index ∧
    (resetIntegrator s).prev_acc_x = s.prev_acc_x ∧
    (resetIntegrator s).prev_acc_y = s.prev_acc_y ∧
    (resetIntegrator s).prev_acc_z = s.prev_acc_z ∧
    (resetIntegrator s).prev_vel_x = s.prev_vel_x ∧
    (resetIntegrator s).prev_vel_y = s.prev_vel_y ∧
    (resetIntegrator s).prev_vel_z = s.prev_vel_z ∧
    (resetIntegrator s).prev_hpf_x = s.prev_hpf_x ∧
    (resetIntegrator s).prev_hpf_y = s.prev_hpf_y ∧
    (resetIntegrator s).prev_hpf_z = s.prev_hpf_z ∧
    (resetIntegrator s).prev_lpf_x = s.prev_lpf_x ∧
    (resetIntegrator s).prev_lpf_y = s.prev_lpf_y ∧
    (resetIntegrator s).prev_lpf_z = s.prev_lpf_z ∧
    (resetIntegrator s).prev_input_x = s.prev_input_x ∧
    (resetIntegrator s).prev_input_y = s.prev_input_y ∧
    (resetIntegrator s).prev_input_z = s.prev_input_z ∧
    (resetIntegrator s).sample_count = s.sample_count ∧
    (resetIntegrator s).all_data = s.all_data ∧
    (integrateSample (resetIntegrator s) x y z).vel_x =
      0 + ((lpfStep (hpfStep s.prev_hpf_x s.prev_input_x x) s.prev_lpf_x
              + s.prev_acc_x) / 2) * DT ∧
    (integrateSample (resetIntegrator s) x y z).disp_x =
      0 + (((0 + ((lpfStep (hpfStep s.prev_hpf_x s.prev_input_x x) s.prev_lpf_x
              + s.prev_acc_x) / 2) * DT) + s.prev_vel_x) / 2) * DT := by
  refine ⟨rfl, rfl, rfl, rfl, rfl, rfl, rfl, rfl, rfl, rfl, rfl, rfl, rfl,
    rfl, rfl, rfl, rfl, rfl, rfl, rfl, rfl, rfl, rfl, rfl, rfl, rfl, rfl,
    rfl, rfl, rfl, rfl, rfl, rfl⟩

/-- C4: for every accepted sample and each axis independently, the filter
and integration update of lines 88-120 computes exactly
`hpf = HPF_ALPHA * (prev_hpf + raw - prev_raw)`,
`lpf = LPF_BETA * hpf + (1 - LPF_BETA) * prev_lpf`,
`velocity += ((lpf + prev_filtered_accel) / 2) * DT`,
`displacement += ((velocity + prev_velocity) / 2) * DT`,
and the previous-value state (`prev_input`, `prev_hpf`, `prev_lpf`,
`prev_acc`, `prev_vel`) is updated unconditionally to the current values.
Determinism is definitional: the update is a pure function of the state and
the raw input. -/
theorem filter_integrator_formulas (s : PipelineState) (x y z : ℚ) :
    (integrateSample s x y z).prev_hpf_x
        = HPF_ALPHA * (s.prev_hpf_x + x - s.prev_input_x) ∧
    (integrateSample s x y z).prev_hpf_y
        = HPF_ALPHA * (s.prev_hpf_y + y - s.prev_input_y) ∧
    (integrateSample s x y z).prev_hpf_z
        = HPF_ALPHA * (s.prev_hpf_z + z - s.prev_input_z) ∧
    (integrateSample s x y z).prev_lpf_x
        = LPF_BETA * (HPF_ALPHA * (s.prev_hpf_x + x - s.prev_input_x))
            + (1 - LPF_BETA) * s.prev_lpf_x ∧
    (integrateSample s x y z).prev_lpf_y
        = LPF_BETA * (HPF_ALPHA * (s.prev_hpf_y + y - s.prev_input_y))
            + (1 - LPF_BETA) * s.prev_lpf_y ∧
    (integrateSample s x y z).prev_lpf_z
        = LPF_BETA * (HPF_ALPHA * (s.prev_hpf_z + z - s.prev_input_z))
            + (1 - LPF_BETA) * s.prev_lpf_z ∧
    (integrateSample s x y z).prev_input_x = x ∧
    (integrateSample s x y z).prev_input_y = y ∧
    (integrateSample s x y z).prev_input_z = z ∧
    (integrateSample s x y z).vel_x
        = s.vel_x + (((integrateSample s x y z).prev_lpf_x + s.prev_acc_x) / 2) * DT ∧
    (integrateSample s x y z).vel_y
        = s.vel_y + (((integrateSample s x y z).prev_lpf_y + s.prev_acc_y) / 2) * DT ∧
    (integrateSample s x y z).vel_z
        = s.vel_z + (((integrateSample s x y z).prev_lpf_z + s.prev_acc_z) / 2) * DT ∧
    (integrateSample s x y z).prev_acc_x = (integrateSample s x y z).prev_lpf_x ∧
    (integrateSample s x y z).prev_acc_y = (integrateSample s x y z).prev_lpf_y ∧
    (integrateSample s x y z).prev_acc_z = (integrateSample s x y z).prev_lpf_z ∧
    (integrateSample s x y z).disp_x
        = s.disp_x + (((integrateSample s x y z).vel_x + s.prev_vel_x) / 2) * DT ∧
    (integrateSample s x y z).disp_y
        = s.disp_y + (((integrateSample s x y z).vel_y + s.prev_vel_y) / 2) * DT ∧
    (integrateSample s x y z).disp_z
        = s.disp_z + (((integrateSample s x y z).vel_z + s.prev_vel_z) / 2) * DT ∧
    (integrateSample s x y z).prev_vel_x = (integrateSample s x y z).vel_x ∧
    (integrateSample s x y z).prev_vel_y = (integrateSample s x y z).vel_y ∧
    (integrateSample s x y z).prev_vel_z = (integrateSample s x y z).vel_z := by
  refine ⟨rfl, rfl, rfl, rfl, rfl, rfl, rfl, rfl, rfl, rfl, rfl, rfl, rfl,
    rfl, rfl, rfl, rfl, rfl, rfl, rfl, rfl⟩

/-- C1 (amended): on every rejected message the whole filter, integrator,
RMS-window and pending-batch state is left bit-identical — the only
difference to the pre-message state is that `sample_count` and
`sample_counter` are each incremented by 1 when the rejected message is an
outlier sample or a shaped message with a non-convertible element (the
increments on lines 74-75 run before the conversions and the outlier
check), and are unchanged for control strings, unparseable messages and
misshapen payloads.  No row is ever appended on rejection. -/
theorem rejection_leaves_state_untouched (dbOk : Bool) (sid : Nat)
    (s : PipelineState) (m : Message) (h : acceptedMsg m = false) :
    (on_message dbOk sid s m).1 =
      { s with
        sample_count := s.sample_count + (if countedOnReject m then 1 else 0)
        sample_counter := s.sample_counter + (if countedOnReject m then 1 else 0) } :=
  rejected_state_eq dbOk sid s m h

/-- Witness for C1 at a concrete rejected input. -/
theorem rejection_leaves_state_untouched_witness :
    acceptedMsg Message.unparseable = false ∧
    (on_message true 1 (initState 0) Message.unparseable).1 =
      { initState 0 with
        sample_count := (initState 0).sample_count
            + (if countedOnReject Message.unparseable then 1 else 0)
        sample_counter := (initState 0).sample_counter
            + (if countedOnReject Message.unparseable then 1 else 0) } :=
  ⟨by decide, rejection_leaves_state_untouched true 1 (initState 0)
    Message.unparseable (by decide)⟩

/-- Counterexample to C1 as stated: an outlier sample is rejected, yet both
the sequence counter and the reset counter ARE incremented (lines 74-75 run
before the outlier check of line 84). -/
theorem rejection_counts_outlier_cex :
    acceptedMsg outlierMsg = false ∧
    (initState 0).sample_count = 1 ∧
    (on_message true 1 (initState 0) outlierMsg).1.sample_count = 2 ∧
    (initState 0).sample_counter = 0 ∧
    (on_message true 1 (initState 0) outlierMsg).1.sample_counter = 1 := by
  refine ⟨by decide, rfl, ?_, rfl, ?_⟩ <;> rfl

/-- C2 (amended): on the accepted sample at which the (already incremented)
reset counter reaches `RESET_INTERVAL`, the integrator reset happens
strictly BEFORE that sample's buffer insertion and row assembly, never
after: the slot written into each of the six circular buffers on that
sample holds the post-reset zero, and immediately after that sample is
processed (before the next sample) velocity and displacement are exactly
zero and the reset counter is zero. -/
theorem reset_before_row (dbOk : Bool) (sid : Nat) (s : PipelineState)
    (a vib : Triple) (hAcc : isOutlier a = false)
    (hTrig : RESET_INTERVAL ≤ s.sample_counter + 1) :
    (on_message dbOk sid s (Message.sample a vib)).1.vel_x = 0 ∧
    (on_message dbOk sid s (Message.sample a vib)).1.vel_y = 0 ∧
    (on_message dbOk sid s (Message.sample a vib)).1.vel_z = 0 ∧
    (on_message dbOk sid s (Message.sample a vib)).1.disp_x = 0 ∧
    (on_message dbOk sid s (Message.sample a vib)).1.disp_y = 0 ∧
    (on_message dbOk sid s (Message.sample a vib)).1.disp_z = 0 ∧
    (on_message dbOk sid s (Message.sample a vib)).1.sample_counter = 0 ∧
    (on_message dbOk sid s (Message.sample a vib)).1.vel_buffer_x
        = s.vel_buffer_x.set s.vel_index 0 ∧
    (on_message dbOk sid s (Message.sample a vib)).1.vel_buffer_y
        = s.vel_buffer_y.set s.vel_index 0 ∧
    (on_message dbOk sid s (Message.sample a vib)).1.vel_buffer_z
        = s.vel_buffer_z.set s.vel_index 0 ∧
    (on_message dbOk sid s (Message.sample a vib)).1.disp_buffer_x
        = s.disp_buffer_x.set s.vel_index 0 ∧
    (on_message dbOk sid s (Message.sample a vib)).1.disp_buffer_y
        = s.disp_buffer_y.set s.vel_index 0 ∧
    (on_message dbOk sid s (Message.sample a vib)).1.disp_buffer_z
        = s.disp_buffer_z.set s.vel_index 0 := by
  rw [on_message_sample dbOk sid s a vib hAcc]
  simp only [processAccepted]
  have h2 : RESET_INTERVAL ≤
      (integrateSample
        { s with sample_count := s.sample_count + 1
                 sample_counter := s.sample_counter + 1 } a.x a.y a.z).sample_counter :=
    hTrig
  rw [if_pos h2, flushIfFull_fst]
  exact ⟨rfl, rfl, rfl, rfl, rfl, rfl, rfl, rfl, rfl, rfl, rfl, rfl, rfl⟩

/-- Witness for C2 at a concrete reset-triggering input. -/
theorem reset_before_row_witness :
    isOutlier (⟨0, 0, 0⟩ : Triple) = false ∧
    RESET_INTERVAL ≤ s19.sample_counter + 1 ∧
    ((on_message true 1 s19 (Message.sample ⟨0, 0, 0⟩ ⟨0, 0, 0⟩)).1.vel_x = 0 ∧
     (on_message true 1 s19 (Message.sample ⟨0, 0, 0⟩ ⟨0, 0, 0⟩)).1.vel_y = 0 ∧
     (on_message true 1 s19 (Message.sample ⟨0, 0, 0⟩ ⟨0, 0, 0⟩)).1.vel_z = 0 ∧
     (on_message true 1 s19 (Message.sample ⟨0, 0, 0⟩ ⟨0, 0, 0⟩)).1.disp_x = 0 ∧
     (on_message true 1 s19 (Message.sample ⟨0, 0, 0⟩ ⟨0, 0, 0⟩)).1.disp_y = 0 ∧
     (on_message true 1 s19 (Message.sample ⟨0, 0, 0⟩ ⟨0, 0, 0⟩)).1.disp_z = 0 ∧
     (on_message true 1 s19 (Message.sample ⟨0, 0, 0⟩ ⟨0, 0, 0⟩)).1.sample_counter = 0 ∧
     (on_message true 1 s19 (Message.sample ⟨0, 0, 0⟩ ⟨0, 0, 0⟩)).1.vel_buffer_x
         = s19.vel_buffer_x.set s19.vel_index 0 ∧
     (on_message true 1 s19 (Message.sample ⟨0, 0, 0⟩ ⟨0, 0, 0⟩)).1.vel_buffer_y
         = s19.vel_buffer_y.set s19.vel_index 0 ∧
     (on_message true 1 s19 (Message.sample ⟨0, 0, 0⟩ ⟨0, 0, 0⟩)).1.vel_buffer_z
         = s19.vel_buffer_z.set s19.vel_index 0 ∧
     (on_message true 1 s19 (Message.sample ⟨0, 0, 0⟩ ⟨0, 0, 0⟩)).1.disp_buffer_x
         = s19.disp_buffer_x.set s19.vel_index 0 ∧
     (on_message true 1 s19 (Message.sample ⟨0, 0, 0⟩ ⟨0, 0, 0⟩)).1.disp_buffer_y
         = s19.disp_buffer_y.set s19.vel_index 0 ∧
     (on_message true 1 s19 (Message.sample ⟨0, 0, 0⟩ ⟨0, 0, 0⟩)).1.disp_buffer_z
         = s19.disp_buffer_z.set s19.vel_index 0) :=
  ⟨by decide, by decide,
    reset_before_row true 1 s19 ⟨0, 0, 0⟩ ⟨0, 0, 0⟩ (by decide) (by decide)⟩

/-- Counterexample to C2 as stated: from a state with `sample_counter = 19`
and velocity 1, a zero-acceleration sample triggers the reset; the code
(`on_message`) zeroes the integrator BEFORE the buffer insertion and row
assembly, so the appended row's axial velocity RMS radicand is 0, whereas
the spec-ordered variant (`on_message_resetAfterRow`, reset strictly after
the row is computed and queued) records radicand 1/10 — the two orderings
produce different rows, refuting the claimed ordering. -/
theorem reset_order_cex :
    ((on_message true 1 s19 sampleZero).1.all_data.map Row.vel_rms_a_sq = [0]) ∧
    ((on_message_resetAfterRow true 1 s19 sampleZero).1.all_data.map
        Row.vel_rms_a_sq = [(1 : ℚ) / 10]) ∧
    (on_message true 1 s19 sampleZero).1.all_data ≠
      (on_message_resetAfterRow true 1 s19 sampleZero).1.all_data := by
  have hsum : ((List.replicate 10 (0 : ℚ)).set 0 1).sum = 1 := by
    show ((0 :: List.replicate 9 (0 : ℚ)).set 0 1).sum = 1
    simp
  have hA : (on_message true 1 s19 sampleZero).1.all_data.map
      Row.vel_rms_a_sq = [0] := by
    norm_num [sampleZero, on_message, processAccepted, s19, initState,
      integrateSample, resetIntegrator, storeBuffers, mkRow, rmsSq, flushIfFull,
      isOutlier, hpfStep, lpfStep, DT, HPF_ALPHA, LPF_BETA, RESET_INTERVAL,
      ACCEL_LIMIT, VEL_WINDOW]
  have hB : (on_message_resetAfterRow true 1 s19 sampleZero).1.all_data.map
      Row.vel_rms_a_sq = [(1 : ℚ) / 10] := by
    norm_num [sampleZero, on_message_resetAfterRow, s19, initState,
      integrateSample, resetIntegrator, storeBuffers, mkRow, rmsSq, flushIfFull,
      isOutlier, hpfStep, lpfStep, DT, HPF_ALPHA, LPF_BETA, RESET_INTERVAL,
      ACCEL_LIMIT, VEL_WINDOW, hsum]
  refine ⟨hA, hB, fun h => ?_⟩
  rw [h] at hA
  rw [hA] at hB
  norm_num at hB

/-- C10: all six circular buffers share the single write index `vel_index`,
which starts at 0, always stays strictly below `VEL_WINDOW`, and advances
by exactly one modulo `VEL_WINDOW` per accepted sample; every accepted
sample writes exactly one slot (at the shared pre-advance index) in each of
the six buffers in lock-step, rejected messages leave the buffers and index
untouched, and each buffer's length stays exactly `VEL_WINDOW`. -/
theorem buffer_index_invariant (dbOk : Bool) (sid : Nat) (s : PipelineState)
    (m : Message) (hidx : s.vel_index < VEL_WINDOW)
    (h1 : s.vel_buffer_x.length = VEL_WINDOW)
    (h2 : s.vel_buffer_y.length = VEL_WINDOW)
    (h3 : s.vel_buffer_z.length = VEL_WINDOW)
    (h4 : s.disp_buffer_x.length = VEL_WINDOW)
    (h5 : s.disp_buffer_y.length = VEL_WINDOW)
    (h6 : s.disp_buffer_z.length = VEL_WINDOW) :
    (∀ n : Nat, (initState n).vel_index = 0 ∧
      (initState n).vel_buffer_x.length = VEL_WINDOW ∧
      (initState n).vel_buffer_y.length = VEL_WINDOW ∧
      (initState n).vel_buffer_z.length = VEL_WINDOW ∧
      (initState n).disp_buffer_x.length = VEL_WINDOW ∧
      (initState n).disp_buffer_y.length = VEL_WINDOW ∧
      (initState n).disp_buffer_z.length = VEL_WINDOW) ∧
    (on_message dbOk sid s m).1.vel_index < VEL_WINDOW ∧
    (on_message dbOk sid s m).1.vel_buffer_x.length = VEL_WINDOW ∧
    (on_message dbOk sid s m).1.vel_buffer_y.length = VEL_WINDOW ∧
    (on_message dbOk sid s m).1.vel_buffer_z.length = VEL_WINDOW ∧
    (on_message dbOk sid s m).1.disp_buffer_x.length = VEL_WINDOW ∧
    (on_message dbOk sid s m).1.disp_buffer_y.length = VEL_WINDOW ∧
    (on_message dbOk sid s m).1.disp_buffer_z.length = VEL_WINDOW ∧
    (acceptedMsg m = true →
      (on_message dbOk sid s m).1.vel_index = (s.vel_index + 1) % VEL_WINDOW ∧
      (on_message dbOk sid s m).1.vel_buffer_x
          = s.vel_buffer_x.set s.vel_index (on_message dbOk sid s m).1.vel_x ∧
      (on_message dbOk sid s m).1.vel_buffer_y
          = s.vel_buffer_y.set s.vel_index (on_message dbOk sid s m).1.vel_y ∧
      (on_message dbOk sid s m).1.vel_buffer_z
          = s.vel_buffer_z.set s.vel_index (on_message dbOk sid s m).1.vel_z ∧
      (on_message dbOk sid s m).1.disp_buffer_x
          = s.disp_buffer_x.set s.vel_index (on_message dbOk sid s m).1.disp_x ∧
      (on_message dbOk sid s m).1.disp_buffer_y
          = s.disp_buffer_y.set s.vel_index (on_message dbOk sid s m).1.disp_y ∧
      (on_message dbOk sid s m).1.disp_buffer_z
          = s.disp_buffer_z.set s.vel_index (on_message dbOk sid s m).1.disp_z) ∧
    (acceptedMsg m = false →
      (on_message dbOk sid s m).1.vel_index = s.vel_index ∧
      (on_message dbOk sid s m).1.vel_buffer_x = s.vel_buffer_x ∧
      (on_message dbOk sid s m).1.vel_buffer_y = s.vel_buffer_y ∧
      (on_message dbOk sid s m).1.vel_buffer_z = s.vel_buffer_z ∧
      (on_message dbOk sid s m).1.disp_buffer_x = s.disp_buffer_x ∧
      (on_message dbOk sid s m).1.disp_buffer_y = s.disp_buffer_y ∧
      (on_message dbOk sid s m).1.disp_buffer_z = s.disp_buffer_z) := by
  refine ⟨fun n => ⟨rfl, by simp [initState], by simp [initState],
    by simp [initState], by simp [initState], by simp [initState],
    by simp [initState]⟩, ?_⟩
  cases hb : acceptedMsg m with
  | false =>
    rw [rejected_state_eq dbOk sid s m hb]
    exact ⟨hidx, h1, h2, h3, h4, h5, h6,
      fun hc => Bool.noConfusion hc,
      fun _ => ⟨rfl, rfl, rfl, rfl, rfl, rfl, rfl⟩⟩
  | true =>
    obtain ⟨a, vib, rfl, ho⟩ := accepted_shape m hb
    obtain ⟨hi, hbx, hby, hbz, hdx, hdy, hdz⟩ :=
      accepted_buffer_facts dbOk sid s a vib ho
    refine ⟨?_, ?_, ?_, ?_, ?_, ?_, ?_,
      fun _ => ⟨hi, hbx, hby, hbz, hdx, hdy, hdz⟩,
      fun hf => Bool.noConfusion hf⟩
    · rw [hi]; exact Nat.mod_lt _ (by decide)
    · rw [hbx]; simp [h1]
    · rw [hby]; simp [h2]
    · rw [hbz]; simp [h3]
    · rw [hdx]; simp [h4]
    · rw [hdy]; simp [h5]
    · rw [hdz]; simp [h6]

/-- Witness for C10 at a concrete input. -/
theorem buffer_index_invariant_witness :
    ((initState 0).vel_index < VEL_WINDOW ∧
     (initState 0).vel_buffer_x.length = VEL_WINDOW ∧
     (initState 0).vel_buffer_y.length = VEL_WINDOW ∧
     (initState 0).vel_buffer_z.length = VEL_WINDOW ∧
     (initState 0).disp_buffer_x.length = VEL_WINDOW ∧
     (initState 0).disp_buffer_y.length = VEL_WINDOW ∧
     (initState 0).disp_buffer_z.length = VEL_WINDOW) ∧
    (on_message true 1 (initState 0) sampleZero).1.vel_index < VEL_WINDOW :=
  ⟨⟨by decide, by decide, by decide, by decide, by decide, by decide, by decide⟩,
    (buffer_index_invariant true 1 (initState 0) sampleZero (by decide)
      (by decide) (by decide) (by decide) (by decide) (by decide)
      (by decide)).2.1⟩

/-- C7: when the mid-stream batch flush fails, the transaction is rolled
back and nothing is committed (the only database interaction is the
rollback), the batch is discarded exactly as on success (the pending batch
is cleared, the rows are not retried), and processing continues — a
subsequent accepted sample is processed normally, appending its row and
incrementing the sequence counter. -/
theorem flush_failure_discards_and_continues (sid : Nat) (s : PipelineState)
    (m : Message) (h : acceptedMsg m = true) (hlen : s.all_data.length = 9) :
    (on_message false sid s m).2 = [DbEvent.rollback] ∧
    (on_message false sid s m).1.all_data = [] ∧
    (∀ m2 : Message, acceptedMsg m2 = true →
      (on_message true sid (on_message false sid s m).1 m2).1.all_data.length = 1 ∧
      (on_message true sid (on_message false sid s m).1 m2).1.sample_count
        = (on_message false sid s m).1.sample_count + 1) := by
  obtain ⟨a, vib, rfl, ho⟩ := accepted_shape m h
  obtain ⟨hd, he, hc, _⟩ := accepted_step_facts false sid s a vib ho
  have hcond : 10 ≤ s.all_data.length + 1 := by omega
  have hempty : (on_message false sid s (Message.sample a vib)).1.all_data = [] := by
    rw [hd, if_pos hcond]
  refine ⟨?_, hempty, ?_⟩
  · rw [he, if_pos hcond]; simp
  · intro m2 h2
    obtain ⟨a2, vib2, rfl, ho2⟩ := accepted_shape m2 h2
    obtain ⟨hd2, _, hc2, _⟩ :=
      accepted_step_facts true sid (on_message false sid s (Message.sample a vib)).1
        a2 vib2 ho2
    refine ⟨?_, hc2⟩
    rw [hd2, hempty]
    simp

/-- Witness for C7 at a concrete input: a batch of 9 rows plus a 10th
accepted sample, with the store refusing the write. -/
theorem flush_failure_witness :
    acceptedMsg sampleZero = true ∧
    ({ initState 0 with
        all_data := List.replicate 9 (rowOf 1 (initState 0) ⟨0, 0, 0⟩ ⟨0, 0, 0⟩)
      } : PipelineState).all_data.length = 9 ∧
    (on_message false 1
      { initState 0 with
        all_data := List.replicate 9 (rowOf 1 (initState 0) ⟨0, 0, 0⟩ ⟨0, 0, 0⟩) }
      sampleZero).2 = [DbEvent.rollback] :=
  ⟨by decide, by simp,
    (flush_failure_discards_and_continues 1
      { initState 0 with
        all_data := List.replicate 9 (rowOf 1 (initState 0) ⟨0, 0, 0⟩ ⟨0, 0, 0⟩) }
      sampleZero (by decide) (by simp)).1⟩

section RunLemmas

/-- Processing fewer than 10 accepted samples onto a batch that stays below
the threshold performs no database interaction and grows the batch by one
row per sample. -/
lemma run_small (sid : Nat) (ms : List Message) : ∀ s : PipelineState,
    (∀ m ∈ ms, acceptedMsg m = true) → s.all_data.length + ms.length ≤ 9 →
    (runMessages true sid s ms).2 = [] ∧
    (runMessages true sid s ms).1.all_data.length
      = s.all_data.length + ms.length := by
  induction ms with
  | nil => intro s _ _; simp [runMessages]
  | cons m ms ih =>
    intro s hall hlen
    obtain ⟨a, vib, hm, ho⟩ := accepted_shape m (hall m (List.mem_cons_self m ms))
    subst hm
    obtain ⟨hd, he, _, _⟩ := accepted_step_facts true sid s a vib ho
    have hnotfull : ¬ 10 ≤ s.all_data.length + 1 := by
      simp only [List.length_cons] at hlen; omega
    have hd' : (on_message true sid s (Message.sample a vib)).1.all_data
        = s.all_data ++ [rowOf sid s a vib] := by rw [hd, if_neg hnotfull]
    have he' : (on_message true sid s (Message.sample a vib)).2 = [] := by
      rw [he, if_neg hnotfull]
    have hlen' : (on_message true sid s (Message.sample a vib)).1.all_data.length
        = s.all_data.length + 1 := by rw [hd']; simp
    obtain ⟨ih1, ih2⟩ := ih (on_message true sid s (Message.sample a vib)).1
      (fun m2 hm2 => hall m2 (List.mem_cons_of_mem _ hm2))
      (by simp only [List.length_cons] at hlen; omega)
    simp only [runMessages]
    refine ⟨by rw [he']; simpa using ih1, ?_⟩
    rw [ih2, hlen']
    simp only [List.length_cons]
    omega

/-- Processing accepted samples that bring the batch to exactly 10 rows
performs exactly one flush of those 10 rows and clears the batch. -/
lemma run_flush (sid : Nat) (ms : List Message) : ∀ s : PipelineState,
    (∀ m ∈ ms, acceptedMsg m = true) → ms ≠ [] →
    s.all_data.length + ms.length = 10 →
    ∃ rs : List Row, (runMessages true sid s ms).2 = [DbEvent.flush rs] ∧
      rs.length = 10 ∧ (runMessages true sid s ms).1.all_data = [] := by
  induction ms with
  | nil => intro s _ hne _; exact absurd rfl hne
  | cons m ms ih =>
    intro s hall hne hlen
    obtain ⟨a, vib, hm, ho⟩ := accepted_shape m (hall m (List.mem_cons_self m ms))
    subst hm
    obtain ⟨hd, he, _, _⟩ := accepted_step_facts true sid s a vib ho
    cases ms with
    | nil =>
      have h9 : s.all_data.length = 9 := by
        simp only [List.length_cons, List.length_nil] at hlen; omega
      have hfull : 10 ≤ s.all_data.length + 1 := by omega
      refine ⟨s.all_data ++ [rowOf sid s a vib], ?_, ?_, ?_⟩
      · simp only [runMessages]
        rw [he, if_pos hfull]
        simp
      · simp [h9]
      · simp only [runMessages]
        rw [hd, if_pos hfull]
    | cons m2 ms2 =>
      have hnotfull : ¬ 10 ≤ s.all_data.length + 1 := by
        simp only [List.length_cons] at hlen; omega
      have hd' : (on_message true sid s (Message.sample a vib)).1.all_data
          = s.all_data ++ [rowOf sid s a vib] := by rw [hd, if_neg hnotfull]
      have he' : (on_message true sid s (Message.sample a vib)).2 = [] := by
        rw [he, if_neg hnotfull]
      obtain ⟨rs, h1, h2, h3⟩ := ih (on_message true sid s (Message.sample a vib)).1
        (fun m3 hm3 => hall m3 (List.mem_cons_of_mem _ hm3))
        (by simp)
        (by
          rw [hd']
          simp only [List.length_cons, List.length_append, List.length_cons,
            List.length_nil] at hlen ⊢
          omega)
      refine ⟨rs, ?_, h2, h3⟩
      simp only [runMessages]
      rw [he']
      simpa using h1

end RunLemmas

/-- C6: from startup, feeding exactly 10 accepted samples triggers exactly
one flush, of exactly those 10 rows, leaving the pending batch empty;
feeding exactly 9 triggers no database interaction and leaves 9 rows
pending; and closing the stream at that point flushes the remaining 9 rows
as a final step, with the connection released (the `closed` event) only
after the flush. -/
theorem batch_flush_threshold (sid : Nat) (ms : List Message)
    (hall : ∀ m ∈ ms, acceptedMsg m = true) :
    (ms.length = 10 →
      ∃ rs : List Row,
        (runMessages true sid (initState 0) ms).2 = [DbEvent.flush rs] ∧
        rs.length = 10 ∧
        (runMessages true sid (initState 0) ms).1.all_data = []) ∧
    (ms.length = 9 →
      (runMessages true sid (initState 0) ms).2 = [] ∧
      (runMessages true sid (initState 0) ms).1.all_data.length = 9 ∧
      on_close true (runMessages true sid (initState 0) ms).1
        = ({ (runMessages true sid (initState 0) ms).1 with all_data := [] },
           [DbEvent.flush (runMessages true sid (initState 0) ms).1.all_data,
            DbEvent.closed])) := by
  constructor
  · intro h10
    refine run_flush sid ms (initState 0) hall ?_ ?_
    · intro hnil; rw [hnil] at h10; simp at h10
    · simpa [initState] using h10
  · intro h9
    obtain ⟨he, hl⟩ := run_small sid ms (initState 0) hall
      (by simp [initState, h9])
    have hl9 : (runMessages true sid (initState 0) ms).1.all_data.length = 9 := by
      rw [hl]; simp [initState, h9]
    refine ⟨he, hl9, ?_⟩
    have hne : ((runMessages true sid (initState 0) ms).1.all_data).isEmpty = false := by
      cases hE : (runMessages true sid (initState 0) ms).1.all_data with
      | nil => rw [hE] at hl9; simp at hl9
      | cons r rs => rfl
    simp [on_close, hne]

/-- Witness for C6 at a concrete input: nine accepted all-zero samples. -/
theorem batch_flush_threshold_witness :
    (∀ m ∈ List.replicate 9 sampleZero, acceptedMsg m = true) ∧
    (runMessages true 1 (initState 0) (List.replicate 9 sampleZero)).2 = [] :=
  ⟨by decide,
    ((batch_flush_threshold 1 (List.replicate 9 sampleZero) (by decide)).2
      (by decide)).1⟩

section SequenceLemmas

lemma emittedRows_append (es1 es2 : List DbEvent) :
    emittedRows (es1 ++ es2) = emittedRows es1 ++ emittedRows es2 := by
  induction es1 with
  | nil => rfl
  | cons e es ih => cases e <;> simp [emittedRows, ih]

/-- One step's effect on the sequence counter and on the combined list of
committed-plus-pending rows: the counter never decreases; the combined list
is unchanged (rejection), extended by one row stamped `sample_count + 1`
(acceptance, whether or not a flush happened), or emptied (flush failure
discarding the batch). -/
lemma step_rows_chars (dbOk : Bool) (sid : Nat) (s : PipelineState) (m : Message) :
    s.sample_count ≤ (on_message dbOk sid s m).1.sample_count ∧
    (emittedRows (on_message dbOk sid s m).2 ++ (on_message dbOk sid s m).1.all_data
        = s.all_data ∨
     (∃ r : Row, r.sample = s.sample_count + 1 ∧
        (on_message dbOk sid s m).1.sample_count = s.sample_count + 1 ∧
        (emittedRows (on_message dbOk sid s m).2
            ++ (on_message dbOk sid s m).1.all_data = s.all_data ++ [r] ∨
         emittedRows (on_message dbOk sid s m).2
            ++ (on_message dbOk sid s m).1.all_data = []))) := by
  cases hb : acceptedMsg m with
  | false =>
    have h1 := rejected_state_eq dbOk sid s m hb
    have h2 := rejected_events dbOk sid s m hb
    constructor
    · rw [h1]; exact Nat.le_add_right _ _
    · left; rw [h1, h2]; simp
  | true =>
    obtain ⟨a, vib, rfl, ho⟩ := accepted_shape m hb
    obtain ⟨hd, he, hc, hr⟩ := accepted_step_facts dbOk sid s a vib ho
    refine ⟨by rw [hc]; omega, Or.inr ⟨rowOf sid s a vib, hr, hc, ?_⟩⟩
    by_cases hfull : 10 ≤ s.all_data.length + 1
    · rw [hd, he, if_pos hfull, if_pos hfull]
      cases dbOk
      · right; simp [emittedRows]
      · left; simp [emittedRows]
    · rw [hd, he, if_neg hfull, if_neg hfull]
      left; simp [emittedRows]

/-- Run-level invariant: starting from a state whose combined row list is
strictly increasing in sequence number and bounded by the current counter,
processing any message list preserves strict increase, keeps every row at
or above the lower bound, and never lets a row exceed the final counter. -/
lemma run_rows_mono (dbOk : Bool) (sid : Nat) (lo : Nat) (ms : List Message) :
    ∀ (s : PipelineState) (pre : List Row),
    lo ≤ s.sample_count + 1 →
    (∀ r ∈ pre ++ s.all_data, lo ≤ r.sample ∧ r.sample ≤ s.sample_count) →
    List.Chain' (fun r1 r2 => r1.sample < r2.sample) (pre ++ s.all_data) →
    lo ≤ (runMessages dbOk sid s ms).1.sample_count + 1 ∧
    (∀ r ∈ (pre ++ emittedRows (runMessages dbOk sid s ms).2)
        ++ (runMessages dbOk sid s ms).1.all_data,
      lo ≤ r.sample ∧ r.sample ≤ (runMessages dbOk sid s ms).1.sample_count) ∧
    List.Chain' (fun r1 r2 => r1.sample < r2.sample)
      ((pre ++ emittedRows (runMessages dbOk sid s ms).2)
        ++ (runMessages dbOk sid s ms).1.all_data) := by
  induction ms with
  | nil =>
    intro s pre h0 h1 h2
    simp only [runMessages, emittedRows, List.append_nil]
    exact ⟨h0, h1, h2⟩
  | cons m ms ih =>
    intro s pre h0 h1 h2
    obtain ⟨hle, hcase⟩ := step_rows_chars dbOk sid s m
    have h0' : lo ≤ (on_message dbOk sid s m).1.sample_count + 1 := by omega
    have hinv : (∀ r ∈ (pre ++ emittedRows (on_message dbOk sid s m).2)
          ++ (on_message dbOk sid s m).1.all_data,
        lo ≤ r.sample ∧ r.sample ≤ (on_message dbOk sid s m).1.sample_count) ∧
        List.Chain' (fun r1 r2 => r1.sample < r2.sample)
          ((pre ++ emittedRows (on_message dbOk sid s m).2)
            ++ (on_message dbOk sid s m).1.all_data) := by
      rcases hcase with hsame | ⟨r, hrs, hcount, happ | hnil⟩
      · rw [List.append_assoc, hsame]
        exact ⟨fun r2 hr2 => ⟨(h1 r2 hr2).1, le_trans (h1 r2 hr2).2 hle⟩, h2⟩
      · rw [List.append_assoc, happ, ← List.append_assoc]
        constructor
        · intro r2 hr2
          rcases List.mem_append.mp hr2 with hin | hin
          · exact ⟨(h1 r2 hin).1, by have := (h1 r2 hin).2; omega⟩
          · have : r2 = r := by simpa using hin
            subst this
            exact ⟨by omega, by omega⟩
        · rw [List.chain'_append]
          refine ⟨h2, List.chain'_singleton r, ?_⟩
          intro x hx y hy
          have hxmem : x ∈ pre ++ s.all_data := by
            obtain ⟨hne, hxl⟩ := List.mem_getLast?_eq_getLast hx
            rw [hxl]
            exact List.getLast_mem hne
          have hy' : r = y := by simpa using hy
          subst hy'
          have := (h1 x hxmem).2
          omega
      · rw [List.append_assoc, hnil, List.append_nil]
        constructor
        · intro r2 hr2
          have hin : r2 ∈ pre ++ s.all_data := List.mem_append_left _ hr2
          exact ⟨(h1 r2 hin).1, le_trans (h1 r2 hin).2 hle⟩
        · exact (List.chain'_append.mp h2).1
    have ihres := ih (on_message dbOk sid s m).1
      (pre ++ emittedRows (on_message dbOk sid s m).2) h0' hinv.1 hinv.2
    simp only [runMessages]
    rw [emittedRows_append, ← List.append_assoc]
    exact ihres

end SequenceLemmas

/-- C3 (amended): `sample_count` is initialized at startup to one past the
maximum sequence number in the store, and it is incremented BEFORE being
stamped onto a row, so the first persisted row carries `last + 2` (sequence
2 on an empty store, not 1); the counter also increments on counted-but-
rejected messages, so consecutive persisted rows may differ by more than 1.
What survives of the claim, for every run and every message list: each
accepted sample increments `sample_count` by exactly 1, every row ever
committed or pending has sequence at least `last + 2` and at most the final
counter (so rows never collide with or precede previously persisted rows),
and the sequence numbers of all rows produced in a run are strictly
increasing — unique and never reused. -/
theorem sequence_monotone (dbOk : Bool) (sid : Nat) (last : Nat)
    (ms : List Message) :
    (initState last).sample_count = last + 1 ∧
    (∀ (s : PipelineState) (m : Message), acceptedMsg m = true →
        (on_message dbOk sid s m).1.sample_count = s.sample_count + 1) ∧
    (∀ r ∈ emittedRows (runMessages dbOk sid (initState last) ms).2
          ++ (runMessages dbOk sid (initState last) ms).1.all_data,
        last + 2 ≤ r.sample ∧
        r.sample ≤ (runMessages dbOk sid (initState last) ms).1.sample_count) ∧
    List.Chain' (fun r1 r2 => r1.sample < r2.sample)
      (emittedRows (runMessages dbOk sid (initState last) ms).2
        ++ (runMessages dbOk sid (initState last) ms).1.all_data) := by
  have hrun := run_rows_mono dbOk sid (last + 2) ms (initState last) []
    (by simp [initState]) (by simp [initState]) (by simp [initState])
  refine ⟨rfl, ?_, ?_, ?_⟩
  · intro s m hm
    obtain ⟨a, vib, rfl, ho⟩ := accepted_shape m hm
    exact (accepted_step_facts dbOk sid s a vib ho).2.2.1
  · intro r hr
    exact hrun.2.1 r (by simpa using hr)
  · have := hrun.2.2
    simpa using this

/-- Witness for C3 applied at a concrete run. -/
theorem sequence_monotone_witness :
    List.Chain' (fun r1 r2 => r1.sample < r2.sample)
      (emittedRows (runMessages true 1 (initState 0) [sampleZero]).2
        ++ (runMessages true 1 (initState 0) [sampleZero]).1.all_data) :=
  (sequence_monotone true 1 0 [sampleZero]).2.2.2

/-- Counterexample to C3 as stated: on an empty store the counter starts at
1, but it is incremented before the first row is stamped, so the first
persisted row gets sequence 2, not 1. -/
theorem first_row_sequence_cex :
    (initState 0).sample_count = 1 ∧
    (on_message true 1 (initState 0) sampleZero).1.all_data.map Row.sample
      = [2] := by
  exact ⟨rfl, by decide⟩

section WindowLemmas

lemma set_append_len (A B : List ℚ) (v : ℚ) :
    (A ++ B).set A.length v = A ++ B.set 0 v := by
  induction A with
  | nil => rfl
  | cons a A ih => simp [List.set, ih]

/-- Writing `vs` at consecutive indices starting at `A.length` into the
zero-padded buffer `A ++ zeros` yields `A ++ vs ++ zeros`. -/
lemma insert_aux (vs : List ℚ) : ∀ (A : List ℚ) (k : Nat), k = A.length →
    k + vs.length ≤ VEL_WINDOW →
    (vs.foldl (fun bi v => (bi.1.set bi.2 v, (bi.2 + 1) % VEL_WINDOW))
        (A ++ List.replicate (VEL_WINDOW - k) 0, k)).1
      = (A ++ vs) ++ List.replicate (VEL_WINDOW - (k + vs.length)) 0 := by
  induction vs with
  | nil =>
    intro A k hk hle
    simp
  | cons v vs ih =>
    intro A k hk hle
    subst hk
    have hlt : A.length < VEL_WINDOW := by
      simp only [List.length_cons] at hle; omega
    have hrep : List.replicate (VEL_WINDOW - A.length) (0 : ℚ)
        = 0 :: List.replicate (VEL_WINDOW - (A.length + 1)) 0 := by
      have harith : VEL_WINDOW - A.length = (VEL_WINDOW - (A.length + 1)) + 1 := by
        omega
      rw [harith, List.replicate_succ]
    have hset : (A ++ 0 :: List.replicate (VEL_WINDOW - (A.length + 1)) (0 : ℚ)).set
        A.length v
        = (A ++ [v]) ++ List.replicate (VEL_WINDOW - (A.length + 1)) 0 := by
      rw [set_append_len]
      simp
    simp only [List.foldl_cons]
    rw [hrep, hset]
    cases vs with
    | nil =>
      simp
    | cons w ws =>
      have hlt2 : A.length + 1 < VEL_WINDOW := by
        simp only [List.length_cons] at hle; omega
      have hmod : (A.length + 1) % VEL_WINDOW = A.length + 1 :=
        Nat.mod_eq_of_lt hlt2
      rw [hmod]
      have hres := ih (A ++ [v]) (A.length + 1) (by simp)
        (by simp only [List.length_cons] at hle ⊢; omega)
      rw [hres]
      have harith2 : A.length + 1 + (w :: ws).length
          = A.length + (v :: w :: ws).length := by
        simp only [List.length_cons]; omega
      rw [harith2]
      simp

end WindowLemmas

/-- C5: each of the six RMS windows is a fixed-capacity buffer of
`VEL_WINDOW` slots with unwritten slots equal to zero; on every insertion
the reported RMS is the square root of the sum of squares of ALL
`VEL_WINDOW` slots divided by `VEL_WINDOW` — in particular, after `k ≤
VEL_WINDOW` insertions since startup the radicand equals the sum of the
inserted squares divided by `VEL_WINDOW` (zero-padded), never divided by
the number of insertions so far. -/
theorem rms_zero_padded (vs : List ℚ) (h : vs.length ≤ VEL_WINDOW) :
    rmsSq (insertSeq vs).1
      = (vs.map fun v => v * v).sum / (VEL_WINDOW : ℚ) ∧
    Real.sqrt ((rmsSq (insertSeq vs).1 : ℚ) : ℝ)
      = Real.sqrt (((vs.map fun v => v * v).sum / (VEL_WINDOW : ℚ) : ℚ) : ℝ) := by
  have hbuf : (insertSeq vs).1 = vs ++ List.replicate (VEL_WINDOW - vs.length) 0 := by
    have hres := insert_aux vs [] 0 rfl (by simpa using h)
    simpa [insertSeq, zeroBuffer] using hres
  have h1 : rmsSq (insertSeq vs).1
      = (vs.map fun v => v * v).sum / (VEL_WINDOW : ℚ) := by
    rw [hbuf]
    simp [rmsSq, List.map_append, List.sum_append, List.map_replicate,
      List.sum_replicate]
  exact ⟨h1, by rw [h1]⟩

/-- Witness for C5 at a concrete partial fill of three values. -/
theorem rms_zero_padded_witness :
    (([1, 2, 3] : List ℚ).length ≤ VEL_WINDOW) ∧
    rmsSq (insertSeq [1, 2, 3]).1
      = (([1, 2, 3] : List ℚ).map fun v => v * v).sum / (VEL_WINDOW : ℚ) :=
  ⟨by decide, (rms_zero_padded [1, 2, 3] (by decide)).1⟩

/-- C8 (amended): the core pipeline (`save_data.py`) makes a SINGLE
connection attempt at startup and exits immediately on failure, accepting
no samples — it does not retry at all; the dashboard's `connect_db`
(`new.py`) is the component that retries, making up to `max_retries = 3`
attempts with a fixed (not growing) delay between them, succeeding as soon
as an attempt succeeds and failing fatally only after all three attempts
fail. -/
theorem startup_retry_amended :
    (∀ (outcomes : Nat → Bool) (last : Nat), outcomes 0 = false →
        saveDataStartup outcomes last = none) ∧
    (∀ (outcomes : Nat → Bool) (last : Nat), outcomes 0 = true →
        saveDataStartup outcomes last = some (initState last)) ∧
    (∀ outcomes : Nat → Bool,
        connect_db outcomes = none ↔
          outcomes 0 = false ∧ outcomes 1 = false ∧ outcomes 2 = false) ∧
    (∀ outcomes : Nat → Bool, outcomes 0 = false → outcomes 1 = true →
        connect_db outcomes = some 1) ∧
    max_retries = 3 := by
  have hdb : ∀ outcomes : Nat → Bool, connect_db outcomes
      = if outcomes 0 then some 0 else if outcomes 1 then some 1
        else if outcomes 2 then some 2 else none := fun _ => rfl
  refine ⟨?_, ?_, ?_, ?_, rfl⟩
  · intro oc last h; simp [saveDataStartup, h]
  · intro oc last h; simp [saveDataStartup, h]
  · intro oc
    rw [hdb]
    cases h0 : oc 0 <;> cases h1 : oc 1 <;> cases h2 : oc 2 <;> simp
  · intro oc h0 h1
    rw [hdb, h0, h1]
    simp

/-- Witness for C8 applied at a concrete outcome sequence. -/
theorem startup_retry_witness :
    saveDataStartup (fun _ => false) 0 = none :=
  startup_retry_amended.1 (fun _ => false) 0 rfl

/-- Counterexample to C8 as stated: with the store down for the first
attempt but up from the second on, a retrying startup would succeed (the
dashboard's `connect_db` returns attempt 1), yet the core pipeline's
startup is immediately fatal — it never retries. -/
theorem startup_no_retry_cex :
    saveDataStartup (fun n => decide (1 ≤ n)) 0 = none ∧
    connect_db (fun n => decide (1 ≤ n)) = some 1 :=
  ⟨rfl, rfl⟩

end VibrationPipeline
